import Mathlib

/-!
Verification of `orthos2/api/commands/delete.py`: the `delete` command
dispatcher (`DeleteCommand.get`) and the describe/execute (GET/POST)
handlers `DeleteMachineCommand`, `DeleteSerialConsoleCommand` and
`DeleteRemotePowerCommand`, shallowly embedded as pure functions over an
explicit list of machine records plus an event trace recording which
effects (lookup, decommission, record deletion) a request performed.
-/

/-- Models Python `str.isspace` characters relevant to `str.split()`:
space, tab, newline, carriage return, vertical tab, form feed. -/
def pyIsSpace (c : Char) : Bool :=
  c == ' ' || c == '\t' || c == '\n' || c == '\r' || c == '\x0b' || c == '\x0c'

/-- Helper for `pySplit`: scans the character list, accumulating the
current (reversed) token; whitespace runs separate tokens and empty
tokens are never produced, matching Python `str.split()` with no
separator argument. -/
def pySplitAux : List Char → List Char → List String
  | [], acc => if acc = [] then [] else [String.mk acc.reverse]
  | c :: cs, acc =>
    if pyIsSpace c then
      if acc = [] then pySplitAux cs []
      else String.mk acc.reverse :: pySplitAux cs []
    else pySplitAux cs (c :: acc)

/-- Models Python `str.split()` (no argument): split on runs of
whitespace, discarding empty tokens. Used by `DeleteCommand.get` as
`arguments.split()`. -/
def pySplit (s : String) : List String :=
  pySplitAux s.toList []

/-- Models Python `str.lower()` for the ASCII strings used here; also
used to model Django `fqdn__iexact` (case-insensitive) lookup. -/
def pyLower (s : String) : String :=
  String.mk (s.toList.map Char.toLower)

/-- Models Python `key.replace('data.', '')`: remove every occurrence of
the literal substring `data.`, scanning left to right without overlap. -/
def replaceDataDot : List Char → List Char
  | 'd' :: 'a' :: 't' :: 'a' :: '.' :: rest => replaceDataDot rest
  | c :: rest => c :: replaceDataDot rest
  | [] => []

/-- String version of `replaceDataDot`, the transformation the handlers
apply to each deleted-object kind name. -/
def pyReplaceDataDot (s : String) : String :=
  String.mk (replaceDataDot s.toList)

/-- The caller, as the handlers see it: `isAnonymous` models
`isinstance(request.user, AnonymousUser)`, `auth` models the truthiness
of `request.auth`, `isSuperuser` models `request.user.is_superuser`. -/
structure Principal where
  isAnonymous : Bool
  auth : Bool
  isSuperuser : Bool
deriving DecidableEq

/-- Outcome of `host.virtualization_api.remove(machine)`: the call may
return True, return False, or raise an exception. -/
inductive RemoveOutcome where
  | ok
  | returnsFalse
  | raises
deriving DecidableEq

/-- A configured virtualization backend, recorded by what its
`remove(machine)` call does for the machine under deletion. -/
structure VirtualizationAPI where
  remove : RemoveOutcome
deriving DecidableEq

/-- Modelled from the spec: a hypervisor record carries an optional
configured virtualization backend (`host.virtualization_api`); the
`Machine` model itself is not under `src/`. -/
structure Hypervisor where
  virtualization_api : Option VirtualizationAPI
deriving DecidableEq

/-- Modelled from the spec: a machine record (the `data.models.Machine`
source is not under `src/`). Per the spec base data model it has a
unique fully-qualified domain name used as a case-insensitive lookup
key, a virtual flag (`is_virtual_machine()`), an optional hypervisor
(`get_hypervisor()`), an optional serial-console sub-resource and an
optional remote-power sub-resource; each sub-resource and the machine
itself carry the per-kind cascade counts their repository `delete()`
call reports (`result[1]`). -/
structure Machine where
  fqdn : String
  isVirtualMachine : Bool
  hypervisor : Option Hypervisor
  serialconsole : Option (List (String × Nat))
  remotepower : Option (List (String × Nat))
  deleteResult : List (String × Nat)
deriving DecidableEq

/-- The structured response payloads the module produces:
`AuthRequiredSerializer` (`authRequired`), `ErrorMessage`
(`errorMessage`), `redirect(reverse(...))` (`redirect`), the
`InputSerializer` form description (`formSchema`), and the
`JsonResponse` deleted-objects table (`table`). -/
inductive Response where
  | authRequired
  | errorMessage (msg : String)
  | redirect (target : String)
  | formSchema (fields : List String) (submitPath : String)
  | table (theader : List (String × String)) (rows : List (String × Nat))
deriving DecidableEq

/-- Effects a POST handler performs against the repository, in order:
the `Machine.objects.get` lookup, the virtualization backend
`remove` call, and a record (or sub-resource) deletion. -/
inductive Event where
  | lookup (fqdn : String)
  | decommission (fqdn : String)
  | deleteRecord (fqdn : String)
deriving DecidableEq

/-- Result of one POST handler run: the response, the machine list after
the request, and the trace of repository effects performed. -/
structure PostResult where
  resp : Response
  machines : List Machine
  events : List Event
deriving DecidableEq

/-- Modelled from the spec: the `Delete*APIForm` classes are not under
`src/`; per the spec each has the single required field `fqdn`, so the
posted form validates exactly when `fqdn` is present and non-empty, and
on failure carries one message for the invalid field. -/
def validateForm (form : Option String) : Except (List (String × String)) String :=
  match form with
  | none => Except.error [("fqdn", "This field is required.")]
  | some s => if s = "" then Except.error [("fqdn", "This field is required.")] else Except.ok s

/-- Modelled from the spec: `utils.misc.format_cli_form_errors` is not
under `src/`; per the spec it aggregates one message per invalid field,
newline-joined. -/
def formatCliFormErrors (errs : List (String × String)) : String :=
  String.intercalate "\n" (errs.map (fun e => e.1 ++ ": " ++ e.2))

/-- All machines whose fqdn matches the given one case-insensitively:
the candidate set of `Machine.objects.get(fqdn__iexact=...)`. -/
def findIexact (machines : List Machine) (fqdn : String) : List Machine :=
  machines.filter (fun m => pyLower m.fqdn == pyLower fqdn)

/-- `Machine.objects.get(fqdn__iexact=fqdn)`: returns the machine when
exactly one matches; zero matches (`DoesNotExist`) or several
(`MultipleObjectsReturned`) raise, which the handlers' blanket `except`
turns into the generic error, so both are modelled as `none`. -/
def objectsGet (machines : List Machine) (fqdn : String) : Option Machine :=
  match findIexact machines fqdn with
  | [m] => some m
  | _ => none

/-- Repository state after `machine.delete()` for the unique machine
matching `fqdn` case-insensitively. -/
def deleteByFqdn (machines : List Machine) (fqdn : String) : List Machine :=
  machines.filter (fun m => !(pyLower m.fqdn == pyLower fqdn))

/-- Repository state after `machine.serialconsole.delete()`: the
matching machine loses its serial-console sub-resource. -/
def clearSerialconsole (machines : List Machine) (fqdn : String) : List Machine :=
  machines.map (fun m =>
    if pyLower m.fqdn == pyLower fqdn then
      { m with serialconsole := none }
    else m)

/-- Repository state after `machine.remotepower.delete()`: the matching
machine loses its remote-power sub-resource. -/
def clearRemotepower (machines : List Machine) (fqdn : String) : List Machine :=
  machines.map (fun m =>
    if pyLower m.fqdn == pyLower fqdn then
      { m with remotepower := none }
    else m)

/-- The `JsonResponse` table each handler builds from the cascade counts
`result[1]`: fixed theader, one row per entry, each kind name passed
through `key.replace('data.', '')`. -/
def makeTable (counts : List (String × Nat)) : Response :=
  Response.table [("objects", "Deleted objects"), ("count", "#")]
    (counts.map (fun kv => (pyReplaceDataDot kv.1, kv.2)))

def Delete.MACHINE : String := "machine"

def Delete.SERIALCONSOLE : String := "serialconsole"

def Delete.REMOTEPOWER : String := "remotepower"

def Delete.as_list : List String := [Delete.MACHINE, Delete.SERIALCONSOLE, Delete.REMOTEPOWER]

/-- `DeleteCommand.get`, the dispatcher for the `delete` command. The
`args` query parameter is `none` when absent; a falsy (absent or empty)
value yields the missing-item error; otherwise the string is split on
whitespace and `arguments[0]` is taken, which raises an uncaught
`IndexError` when the token list is empty (whitespace-only input) —
modelled as `none`. -/
def DeleteCommand_get (args : Option String) : Option Response :=
  match args with
  | none => some (Response.errorMessage "Item is missing!")
  | some s =>
    if s = "" then some (Response.errorMessage "Item is missing!")
    else
      match pySplit s with
      | [] => none
      | tok :: sub_arguments =>
        let item := pyLower tok
        if item = Delete.MACHINE then
          if sub_arguments.length ≠ 0 then
            some (Response.errorMessage "Invalid number of arguments for 'machine'!")
          else some (Response.redirect "/machine/delete")
        else if item = Delete.SERIALCONSOLE then
          if sub_arguments.length ≠ 0 then
            some (Response.errorMessage "Invalid number of arguments for 'serialconsole'!")
          else some (Response.redirect "/serialconsole/delete")
        else if item = Delete.REMOTEPOWER then
          if sub_arguments.length ≠ 0 then
            some (Response.errorMessage "Invalid number of arguments for 'remotepower'!")
          else some (Response.redirect "/remotepower/delete")
        else some (Response.errorMessage ("Unknown item '" ++ item ++ "'!"))

/-- `DeleteMachineCommand.get`: the describe (form) endpoint for machine
deletion. The machine list is threaded through unchanged — the handler
performs no repository access. -/
def DeleteMachineCommand_get (machines : List Machine) (p : Principal) : Response × List Machine :=
  if p.isAnonymous || !p.auth then (Response.authRequired, machines)
  else if !p.isSuperuser then
    (Response.errorMessage "Only superusers are allowed to perform this action!", machines)
  else (Response.formSchema ["fqdn"] "/machine/delete", machines)

/-- `DeleteSerialConsoleCommand.get`: describe endpoint for
serial-console deletion. -/
def DeleteSerialConsoleCommand_get (machines : List Machine) (p : Principal) : Response × List Machine :=
  if p.isAnonymous || !p.auth then (Response.authRequired, machines)
  else if !p.isSuperuser then
    (Response.errorMessage "Only superusers are allowed to perform this action!", machines)
  else (Response.formSchema ["fqdn"] "/serialconsole/delete", machines)

/-- `DeleteRemotePowerCommand.get`: describe endpoint for remote-power
deletion. -/
def DeleteRemotePowerCommand_get (machines : List Machine) (p : Principal) : Response × List Machine :=
  if p.isAnonymous || !p.auth then (Response.authRequired, machines)
  else if !p.isSuperuser then
    (Response.errorMessage "Only superusers are allowed to perform this action!", machines)
  else (Response.formSchema ["fqdn"] "/remotepower/delete", machines)

/-- `DeleteMachineCommand.post`. Faithful branch structure: superuser
guard; form validation; `Machine.objects.get` (miss raises, caught by
the blanket `except` as the generic error); for a virtual machine a
`None` hypervisor raises `AttributeError` (generic error), a hypervisor
without `virtualization_api` returns the no-API error, and when
`remove(machine)` returns False the later `result[1]` read raises
`NameError` on the unbound local (generic error, machine kept); only a
True `remove` — or a non-virtual machine — reaches `machine.delete()`
and the table. -/
def DeleteMachineCommand_post (machines : List Machine) (p : Principal) (form : Option String) : PostResult :=
  if !p.isSuperuser then
    ⟨Response.errorMessage "Only superusers are allowed to perform this action!", machines, []⟩
  else
    match validateForm form with
    | Except.error errs =>
      ⟨Response.errorMessage ("\n" ++ formatCliFormErrors errs), machines, []⟩
    | Except.ok fqdn =>
      match objectsGet machines fqdn with
      | none => ⟨Response.errorMessage "Something went wrong!", machines, [Event.lookup fqdn]⟩
      | some m =>
        if m.isVirtualMachine then
          match m.hypervisor with
          | none => ⟨Response.errorMessage "Something went wrong!", machines, [Event.lookup fqdn]⟩
          | some host =>
            match host.virtualization_api with
            | none =>
              ⟨Response.errorMessage "No virtualization API found!", machines, [Event.lookup fqdn]⟩
            | some api =>
              match api.remove with
              | RemoveOutcome.ok =>
                ⟨makeTable m.deleteResult, deleteByFqdn machines fqdn,
                  [Event.lookup fqdn, Event.decommission fqdn, Event.deleteRecord fqdn]⟩
              | RemoveOutcome.returnsFalse =>
                ⟨Response.errorMessage "Something went wrong!", machines,
                  [Event.lookup fqdn, Event.decommission fqdn]⟩
              | RemoveOutcome.raises =>
                ⟨Response.errorMessage "Something went wrong!", machines,
                  [Event.lookup fqdn, Event.decommission fqdn]⟩
        else
          ⟨makeTable m.deleteResult, deleteByFqdn machines fqdn,
            [Event.lookup fqdn, Event.deleteRecord fqdn]⟩

/-- `DeleteSerialConsoleCommand.post`: superuser guard, validation,
lookup, `has_serialconsole()` precondition, then
`machine.serialconsole.delete()` and the table. -/
def DeleteSerialConsoleCommand_post (machines : List Machine) (p : Principal) (form : Option String) : PostResult :=
  if !p.isSuperuser then
    ⟨Response.errorMessage "Only superusers are allowed to perform this action!", machines, []⟩
  else
    match validateForm form with
    | Except.error errs =>
      ⟨Response.errorMessage ("\n" ++ formatCliFormErrors errs), machines, []⟩
    | Except.ok fqdn =>
      match objectsGet machines fqdn with
      | none => ⟨Response.errorMessage "Something went wrong!", machines, [Event.lookup fqdn]⟩
      | some m =>
        match m.serialconsole with
        | none =>
          ⟨Response.errorMessage "Machine has no serial console!", machines, [Event.lookup fqdn]⟩
        | some counts =>
          ⟨makeTable counts, clearSerialconsole machines fqdn,
            [Event.lookup fqdn, Event.deleteRecord fqdn]⟩

/-- `DeleteRemotePowerCommand.post`: superuser guard, validation,
lookup, `has_remotepower()` precondition, then
`machine.remotepower.delete()` and the table. -/
def DeleteRemotePowerCommand_post (machines : List Machine) (p : Principal) (form : Option String) : PostResult :=
  if !p.isSuperuser then
    ⟨Response.errorMessage "Only superusers are allowed to perform this action!", machines, []⟩
  else
    match validateForm form with
    | Except.error errs =>
      ⟨Response.errorMessage ("\n" ++ formatCliFormErrors errs), machines, []⟩
    | Except.ok fqdn =>
      match objectsGet machines fqdn with
      | none => ⟨Response.errorMessage "Something went wrong!", machines, [Event.lookup fqdn]⟩
      | some m =>
        match m.remotepower with
        | none =>
          ⟨Response.errorMessage "Machine has no remote power!", machines, [Event.lookup fqdn]⟩
        | some counts =>
          ⟨makeTable counts, clearRemotepower machines fqdn,
            [Event.lookup fqdn, Event.deleteRecord fqdn]⟩

/-- The guard outcomes of a describe/execute request: the
auth-required payload or the superuser-only error message. -/
def guardReject (r : Response) : Prop :=
  r = Response.authRequired ∨
    r = Response.errorMessage "Only superusers are allowed to perform this action!"

/-- All six operations reject the principal at the guard: each describe
returns an auth/forbidden payload with the machine list untouched, and
each execute returns an auth/forbidden payload with the machine list
untouched and an empty effect trace (no lookup, no deletion). -/
def guardRejectAll (p : Principal) (machines : List Machine) (form : Option String) : Prop :=
  (guardReject (DeleteMachineCommand_get machines p).1 ∧
    (DeleteMachineCommand_get machines p).2 = machines) ∧
  (guardReject (DeleteSerialConsoleCommand_get machines p).1 ∧
    (DeleteSerialConsoleCommand_get machines p).2 = machines) ∧
  (guardReject (DeleteRemotePowerCommand_get machines p).1 ∧
    (DeleteRemotePowerCommand_get machines p).2 = machines) ∧
  ((DeleteMachineCommand_post machines p form).resp =
      Response.errorMessage "Only superusers are allowed to perform this action!" ∧
    (DeleteMachineCommand_post machines p form).machines = machines ∧
    (DeleteMachineCommand_post machines p form).events = []) ∧
  ((DeleteSerialConsoleCommand_post machines p form).resp =
      Response.errorMessage "Only superusers are allowed to perform this action!" ∧
    (DeleteSerialConsoleCommand_post machines p form).machines = machines ∧
    (DeleteSerialConsoleCommand_post machines p form).events = []) ∧
  ((DeleteRemotePowerCommand_post machines p form).resp =
      Response.errorMessage "Only superusers are allowed to perform this action!" ∧
    (DeleteRemotePowerCommand_post machines p form).machines = machines ∧
    (DeleteRemotePowerCommand_post machines p form).events = [])

/-- C1: for every unauthenticated principal (anonymous user — Django's
`AnonymousUser` is never a superuser, hypothesis `hanon`) and every
non-superuser authenticated principal, all six operations (describe and
execute for machine, serialconsole, remotepower) return `AuthRequired`
or the Forbidden message "Only superusers are allowed to perform this
action!", leave every machine, serial-console and remote-power record
unchanged, and perform no lookup or delete effect. -/
theorem c1_guard_rejects (p : Principal) (machines : List Machine) (form : Option String)
    (hanon : p.isAnonymous = true → p.isSuperuser = false)
    (hcls : p.isAnonymous = true ∨ p.isSuperuser = false) :
    guardRejectAll p machines form := by
  obtain ⟨a, au, su⟩ := p
  simp only at hanon hcls
  unfold guardRejectAll guardReject DeleteMachineCommand_get DeleteSerialConsoleCommand_get
    DeleteRemotePowerCommand_get DeleteMachineCommand_post DeleteSerialConsoleCommand_post
    DeleteRemotePowerCommand_post
  cases a <;> cases au <;> cases su <;> simp_all

/-- Witness for C1 at two concrete principals: an anonymous caller and
an authenticated non-superuser. -/
theorem c1_guard_rejects_witness :
    guardRejectAll ⟨true, false, false⟩ [] none ∧ guardRejectAll ⟨false, true, false⟩ [] none :=
  ⟨c1_guard_rejects ⟨true, false, false⟩ [] none (fun _ => rfl) (Or.inl rfl),
    c1_guard_rejects ⟨false, true, false⟩ [] none (fun h => by cases h) (Or.inr rfl)⟩

/-- C4: dispatch taxonomy. With `args` absent the dispatcher returns the
missing-item error; with `args="bogus"` the unknown-item error naming
`bogus`; with a known item followed by sub-arguments the
invalid-argument-count error; with `args` equal to exactly one of
`machine`/`serialconsole`/`remotepower` (matched after lowercasing, as
the mixed-case instances show) it redirects to that kind's describe
endpoint. -/
theorem c4_dispatch_taxonomy :
    DeleteCommand_get none = some (Response.errorMessage "Item is missing!") ∧
    DeleteCommand_get (some "bogus") = some (Response.errorMessage "Unknown item 'bogus'!") ∧
    DeleteCommand_get (some "machine extra") =
      some (Response.errorMessage "Invalid number of arguments for 'machine'!") ∧
    DeleteCommand_get (some "serialconsole a b") =
      some (Response.errorMessage "Invalid number of arguments for 'serialconsole'!") ∧
    DeleteCommand_get (some "remotepower x") =
      some (Response.errorMessage "Invalid number of arguments for 'remotepower'!") ∧
    DeleteCommand_get (some "machine") = some (Response.redirect "/machine/delete") ∧
    DeleteCommand_get (some "serialconsole") = some (Response.redirect "/serialconsole/delete") ∧
    DeleteCommand_get (some "remotepower") = some (Response.redirect "/remotepower/delete") ∧
    DeleteCommand_get (some "MaChInE") = some (Response.redirect "/machine/delete") ∧
    DeleteCommand_get (some "SERIALCONSOLE") = some (Response.redirect "/serialconsole/delete") ∧
    DeleteCommand_get (some "RemotePower") = some (Response.redirect "/remotepower/delete") := by
  decide

/-- Helper for C10: tokenizing an all-whitespace character list with an
empty accumulator yields no tokens. -/
theorem pySplitAux_all_space (l : List Char) (h : ∀ c ∈ l, pyIsSpace c = true) :
    pySplitAux l [] = [] := by
  induction l with
  | nil => rfl
  | cons c cs ih =>
    have hc : pyIsSpace c = true := h c (by simp)
    simp only [pySplitAux, hc, if_true, if_pos rfl]
    exact ih (fun x hx => h x (by simp [hx]))

/-- C10: for every `args` string that is present and non-empty but
consists only of whitespace, the dispatcher returns none of the
taxonomy's error responses: tokenizing yields the empty list, indexing
token 0 raises an uncaught `IndexError`, so the embedding is undefined
(`none`) there; the missing-item error branch is taken only when `args`
is absent or the empty string. -/
theorem c10_whitespace_args_crash (s : String)
    (h1 : s.toList ≠ []) (h2 : ∀ c ∈ s.toList, pyIsSpace c = true) :
    DeleteCommand_get (some s) = none ∧
    DeleteCommand_get none = some (Response.errorMessage "Item is missing!") ∧
    DeleteCommand_get (some "") = some (Response.errorMessage "Item is missing!") := by
  refine ⟨?_, rfl, rfl⟩
  have hne : s ≠ "" := by
    intro h
    apply h1
    rw [h]
    rfl
  simp only [DeleteCommand_get, if_neg hne]
  rw [pySplit, pySplitAux_all_space s.toList h2]

/-- Witness for C10 at the concrete argument string of a space and a
tab. -/
theorem c10_whitespace_args_crash_witness :
    DeleteCommand_get (some " \t") = none ∧
    DeleteCommand_get none = some (Response.errorMessage "Item is missing!") ∧
    DeleteCommand_get (some "") = some (Response.errorMessage "Item is missing!") :=
  c10_whitespace_args_crash " \t" (by decide) (by decide)

/-- C9: for every authenticated superuser principal, describe for each
of the three kinds returns a `FormSchema` whose single field is `fqdn`
and whose submit path is that kind's POST path (`/machine/delete`,
`/serialconsole/delete`, `/remotepower/delete`), and leaves the machine
list unchanged. -/
theorem c9_describe_schema (machines : List Machine) (p : Principal)
    (ha : p.isAnonymous = false) (hau : p.auth = true) (hsu : p.isSuperuser = true) :
    DeleteMachineCommand_get machines p =
      (Response.formSchema ["fqdn"] "/machine/delete", machines) ∧
    DeleteSerialConsoleCommand_get machines p =
      (Response.formSchema ["fqdn"] "/serialconsole/delete", machines) ∧
    DeleteRemotePowerCommand_get machines p =
      (Response.formSchema ["fqdn"] "/remotepower/delete", machines) := by
  unfold DeleteMachineCommand_get DeleteSerialConsoleCommand_get DeleteRemotePowerCommand_get
  simp [ha, hau, hsu]

/-- Witness for C9 at a concrete superuser principal. -/
theorem c9_describe_schema_witness :
    DeleteMachineCommand_get [] ⟨false, true, true⟩ =
      (Response.formSchema ["fqdn"] "/machine/delete", []) ∧
    DeleteSerialConsoleCommand_get [] ⟨false, true, true⟩ =
      (Response.formSchema ["fqdn"] "/serialconsole/delete", []) ∧
    DeleteRemotePowerCommand_get [] ⟨false, true, true⟩ =
      (Response.formSchema ["fqdn"] "/remotepower/delete", []) :=
  c9_describe_schema [] ⟨false, true, true⟩ rfl rfl rfl

/-- C7: for every execute request (any of the three kinds) whose posted
form fails field validation, the handler returns the `ValidationError`
message aggregating one message per invalid field, newline-joined
(prefixed by the newline of the source's format string), leaves the
machine list unchanged and performs no repository effect at all — in
particular no lookup precedes validation. -/
theorem c7_validation_first (machines : List Machine) (p : Principal) (form : Option String)
    (errs : List (String × String))
    (hsu : p.isSuperuser = true) (hval : validateForm form = Except.error errs) :
    DeleteMachineCommand_post machines p form =
      ⟨Response.errorMessage ("\n" ++ formatCliFormErrors errs), machines, []⟩ ∧
    DeleteSerialConsoleCommand_post machines p form =
      ⟨Response.errorMessage ("\n" ++ formatCliFormErrors errs), machines, []⟩ ∧
    DeleteRemotePowerCommand_post machines p form =
      ⟨Response.errorMessage ("\n" ++ formatCliFormErrors errs), machines, []⟩ := by
  unfold DeleteMachineCommand_post DeleteSerialConsoleCommand_post DeleteRemotePowerCommand_post
  simp [hsu, hval]

/-- Witness for C7 at a posted empty `fqdn`. -/
theorem c7_validation_first_witness :
    DeleteMachineCommand_post [] ⟨false, true, true⟩ (some "") =
      ⟨Response.errorMessage
        ("\n" ++ formatCliFormErrors [("fqdn", "This field is required.")]), [], []⟩ ∧
    DeleteSerialConsoleCommand_post [] ⟨false, true, true⟩ (some "") =
      ⟨Response.errorMessage
        ("\n" ++ formatCliFormErrors [("fqdn", "This field is required.")]), [], []⟩ ∧
    DeleteRemotePowerCommand_post [] ⟨false, true, true⟩ (some "") =
      ⟨Response.errorMessage
        ("\n" ++ formatCliFormErrors [("fqdn", "This field is required.")]), [], []⟩ :=
  c7_validation_first [] ⟨false, true, true⟩ (some "")
    [("fqdn", "This field is required.")] rfl rfl

/-- C2: executing machine-delete for a virtual machine whose hypervisor
has no configured virtualization backend returns `ConfigurationError`
with message "No virtualization API found!", the machine record is not
deleted (the machine list is unchanged and no delete effect occurs),
and repeating the same call yields the same error. -/
theorem c2_no_virtualization_api (machines : List Machine) (p : Principal)
    (form : Option String) (fqdn : String) (m : Machine) (host : Hypervisor)
    (hsu : p.isSuperuser = true) (hval : validateForm form = Except.ok fqdn)
    (hget : objectsGet machines fqdn = some m)
    (hvirt : m.isVirtualMachine = true)
    (hhyp : m.hypervisor = some host)
    (hapi : host.virtualization_api = none) :
    DeleteMachineCommand_post machines p form =
      ⟨Response.errorMessage "No virtualization API found!", machines, [Event.lookup fqdn]⟩ ∧
    DeleteMachineCommand_post (DeleteMachineCommand_post machines p form).machines p form =
      DeleteMachineCommand_post machines p form := by
  have h1 : DeleteMachineCommand_post machines p form =
      ⟨Response.errorMessage "No virtualization API found!", machines, [Event.lookup fqdn]⟩ := by
    unfold DeleteMachineCommand_post
    simp [hsu, hval, hget, hvirt, hhyp, hapi]
  exact ⟨h1, by rw [h1]; exact h1⟩

/-- Concrete virtual machine whose hypervisor has no backend, for the C2
witness. -/
def vmNoApi : Machine :=
  { fqdn := "vm1.example.com", isVirtualMachine := true,
    hypervisor := some { virtualization_api := none },
    serialconsole := none, remotepower := none,
    deleteResult := [("data.Machine", 1)] }

/-- Witness for C2 at the concrete machine `vmNoApi`. -/
theorem c2_no_virtualization_api_witness :
    DeleteMachineCommand_post [vmNoApi] ⟨false, true, true⟩ (some "vm1.example.com") =
      ⟨Response.errorMessage "No virtualization API found!", [vmNoApi],
        [Event.lookup "vm1.example.com"]⟩ ∧
    DeleteMachineCommand_post
        (DeleteMachineCommand_post [vmNoApi] ⟨false, true, true⟩
          (some "vm1.example.com")).machines ⟨false, true, true⟩ (some "vm1.example.com") =
      DeleteMachineCommand_post [vmNoApi] ⟨false, true, true⟩ (some "vm1.example.com") :=
  c2_no_virtualization_api [vmNoApi] ⟨false, true, true⟩ (some "vm1.example.com")
    "vm1.example.com" vmNoApi { virtualization_api := none }
    rfl rfl (by decide) rfl rfl rfl

/-- C3: in machine-delete for a virtual machine, whenever the
virtualization backend's decommission call does not succeed (returns
False or raises), the machine record is never deleted — the machine
list is unchanged, the effect trace contains the lookup and the
decommission attempt but no delete — and the request terminates in the
generic failure response, with no partial application of the later
deletion and reporting steps. -/
theorem c3_decommission_gate (machines : List Machine) (p : Principal)
    (form : Option String) (fqdn : String) (m : Machine) (host : Hypervisor)
    (api : VirtualizationAPI)
    (hsu : p.isSuperuser = true) (hval : validateForm form = Except.ok fqdn)
    (hget : objectsGet machines fqdn = some m)
    (hvirt : m.isVirtualMachine = true)
    (hhyp : m.hypervisor = some host)
    (hapi : host.virtualization_api = some api)
    (hfail : api.remove ≠ RemoveOutcome.ok) :
    DeleteMachineCommand_post machines p form =
      ⟨Response.errorMessage "Something went wrong!", machines,
        [Event.lookup fqdn, Event.decommission fqdn]⟩ ∧
    Event.deleteRecord fqdn ∉ (DeleteMachineCommand_post machines p form).events := by
  have h1 : DeleteMachineCommand_post machines p form =
      ⟨Response.errorMessage "Something went wrong!", machines,
        [Event.lookup fqdn, Event.decommission fqdn]⟩ := by
    unfold DeleteMachineCommand_post
    cases hr : api.remove <;> simp_all
  refine ⟨h1, ?_⟩
  rw [h1]
  simp

/-- Concrete virtual machine whose backend's remove returns False, for
the C3 witness. -/
def vmRemoveFalse : Machine :=
  { fqdn := "vm2.example.com", isVirtualMachine := true,
    hypervisor := some { virtualization_api := some { remove := RemoveOutcome.returnsFalse } },
    serialconsole := none, remotepower := none,
    deleteResult := [("data.Machine", 1)] }

/-- Concrete virtual machine whose backend's remove raises, for the C3
witness. -/
def vmRemoveRaises : Machine :=
  { fqdn := "vm3.example.com", isVirtualMachine := true,
    hypervisor := some { virtualization_api := some { remove := RemoveOutcome.raises } },
    serialconsole := none, remotepower := none,
    deleteResult := [("data.Machine", 1)] }

/-- Witness for C3 at both failing decommission outcomes. -/
theorem c3_decommission_gate_witness :
    DeleteMachineCommand_post [vmRemoveFalse] ⟨false, true, true⟩ (some "vm2.example.com") =
      ⟨Response.errorMessage "Something went wrong!", [vmRemoveFalse],
        [Event.lookup "vm2.example.com", Event.decommission "vm2.example.com"]⟩ ∧
    DeleteMachineCommand_post [vmRemoveRaises] ⟨false, true, true⟩ (some "vm3.example.com") =
      ⟨Response.errorMessage "Something went wrong!", [vmRemoveRaises],
        [Event.lookup "vm3.example.com", Event.decommission "vm3.example.com"]⟩ :=
  ⟨(c3_decommission_gate [vmRemoveFalse] ⟨false, true, true⟩ (some "vm2.example.com")
      "vm2.example.com" vmRemoveFalse
      { virtualization_api := some { remove := RemoveOutcome.returnsFalse } }
      { remove := RemoveOutcome.returnsFalse }
      rfl rfl (by decide) rfl rfl rfl (by decide)).1,
    (c3_decommission_gate [vmRemoveRaises] ⟨false, true, true⟩ (some "vm3.example.com")
      "vm3.example.com" vmRemoveRaises
      { virtualization_api := some { remove := RemoveOutcome.raises } }
      { remove := RemoveOutcome.raises }
      rfl rfl (by decide) rfl rfl rfl (by decide)).1⟩

/-- Helper for C5: after deleting the machine matching `fqdn`, no
machine matches `fqdn` case-insensitively any more. -/
theorem findIexact_deleteByFqdn (machines : List Machine) (fqdn : String) :
    findIexact (deleteByFqdn machines fqdn) fqdn = [] := by
  unfold findIexact deleteByFqdn
  induction machines with
  | nil => rfl
  | cons m ms ih =>
    by_cases h : pyLower m.fqdn == pyLower fqdn <;> simp_all [List.filter_cons]

/-- C5: for every execute request whose validated fqdn matches no stored
machine, in any of the three kinds, the lookup failure is caught by the
blanket handler and reported as the opaque message "Something went
wrong!" with no mutation — never a distinct not-found kind and never a
success table; in particular a second machine-delete against an fqdn
already deleted by a first successful execute reports the same opaque
error rather than a success table. -/
theorem c5_lookup_miss_generic (machines : List Machine) (p : Principal)
    (form : Option String) (fqdn : String)
    (hsu : p.isSuperuser = true) (hval : validateForm form = Except.ok fqdn) :
    (findIexact machines fqdn = [] →
      DeleteMachineCommand_post machines p form =
        ⟨Response.errorMessage "Something went wrong!", machines, [Event.lookup fqdn]⟩ ∧
      DeleteSerialConsoleCommand_post machines p form =
        ⟨Response.errorMessage "Something went wrong!", machines, [Event.lookup fqdn]⟩ ∧
      DeleteRemotePowerCommand_post machines p form =
        ⟨Response.errorMessage "Something went wrong!", machines, [Event.lookup fqdn]⟩) ∧
    (∀ m, findIexact machines fqdn = [m] → m.isVirtualMachine = false →
      (DeleteMachineCommand_post machines p form).resp = makeTable m.deleteResult ∧
      DeleteMachineCommand_post (DeleteMachineCommand_post machines p form).machines p form =
        ⟨Response.errorMessage "Something went wrong!",
          (DeleteMachineCommand_post machines p form).machines, [Event.lookup fqdn]⟩) := by
  constructor
  · intro hmiss
    have hget : objectsGet machines fqdn = none := by
      unfold objectsGet
      rw [hmiss]
    unfold DeleteMachineCommand_post DeleteSerialConsoleCommand_post DeleteRemotePowerCommand_post
    simp [hsu, hval, hget]
  · intro m hone hnv
    have hget : objectsGet machines fqdn = some m := by
      unfold objectsGet
      rw [hone]
    have hfirst : DeleteMachineCommand_post machines p form =
        ⟨makeTable m.deleteResult, deleteByFqdn machines fqdn,
          [Event.lookup fqdn, Event.deleteRecord fqdn]⟩ := by
      unfold DeleteMachineCommand_post
      simp [hsu, hval, hget, hnv]
    have hget2 : objectsGet (deleteByFqdn machines fqdn) fqdn = none := by
      unfold objectsGet
      rw [findIexact_deleteByFqdn]
    refine ⟨by rw [hfirst], ?_⟩
    rw [hfirst]
    unfold DeleteMachineCommand_post
    simp [hsu, hval, hget2]

/-- Concrete non-virtual machine for the C5 witness. -/
def mPlain : Machine :=
  { fqdn := "host01.example.com", isVirtualMachine := false, hypervisor := none,
    serialconsole := none, remotepower := none,
    deleteResult := [("data.Machine", 1)] }

/-- Witness for C5: a miss on the empty repository for all three kinds,
and the delete-then-repeat scenario on a concrete machine. -/
theorem c5_lookup_miss_generic_witness :
    (DeleteMachineCommand_post [] ⟨false, true, true⟩ (some "host01.example.com") =
      ⟨Response.errorMessage "Something went wrong!", [],
        [Event.lookup "host01.example.com"]⟩ ∧
      DeleteSerialConsoleCommand_post [] ⟨false, true, true⟩ (some "host01.example.com") =
        ⟨Response.errorMessage "Something went wrong!", [],
          [Event.lookup "host01.example.com"]⟩ ∧
      DeleteRemotePowerCommand_post [] ⟨false, true, true⟩ (some "host01.example.com") =
        ⟨Response.errorMessage "Something went wrong!", [],
          [Event.lookup "host01.example.com"]⟩) ∧
    DeleteMachineCommand_post
        (DeleteMachineCommand_post [mPlain] ⟨false, true, true⟩
          (some "host01.example.com")).machines ⟨false, true, true⟩
        (some "host01.example.com") =
      ⟨Response.errorMessage "Something went wrong!",
        (DeleteMachineCommand_post [mPlain] ⟨false, true, true⟩
          (some "host01.example.com")).machines,
        [Event.lookup "host01.example.com"]⟩ :=
  ⟨(c5_lookup_miss_generic [] ⟨false, true, true⟩ (some "host01.example.com")
      "host01.example.com" rfl rfl).1 rfl,
    ((c5_lookup_miss_generic [mPlain] ⟨false, true, true⟩ (some "host01.example.com")
      "host01.example.com" rfl rfl).2 mPlain (by decide) rfl).2⟩

/-- C6: for every machine without a serial-console sub-resource,
executing serialconsole-delete on its fqdn returns the
`PreconditionFailed` message "Machine has no serial console!" and
mutates nothing; symmetrically, remotepower-delete on a machine without
a remote-power sub-resource returns "Machine has no remote power!" and
mutates nothing. -/
theorem c6_missing_subresource (machines : List Machine) (p : Principal)
    (form : Option String) (fqdn : String)
    (hsu : p.isSuperuser = true) (hval : validateForm form = Except.ok fqdn) :
    (∀ m, objectsGet machines fqdn = some m → m.serialconsole = none →
      DeleteSerialConsoleCommand_post machines p form =
        ⟨Response.errorMessage "Machine has no serial console!", machines,
          [Event.lookup fqdn]⟩) ∧
    (∀ m, objectsGet machines fqdn = some m → m.remotepower = none →
      DeleteRemotePowerCommand_post machines p form =
        ⟨Response.errorMessage "Machine has no remote power!", machines,
          [Event.lookup fqdn]⟩) := by
  constructor
  · intro m hget hsc
    unfold DeleteSerialConsoleCommand_post
    simp [hsu, hval, hget, hsc]
  · intro m hget hrp
    unfold DeleteRemotePowerCommand_post
    simp [hsu, hval, hget, hrp]

/-- Witness for C6 at the concrete machine `mPlain`, which has neither
sub-resource. -/
theorem c6_missing_subresource_witness :
    DeleteSerialConsoleCommand_post [mPlain] ⟨false, true, true⟩ (some "host01.example.com") =
      ⟨Response.errorMessage "Machine has no serial console!", [mPlain],
        [Event.lookup "host01.example.com"]⟩ ∧
    DeleteRemotePowerCommand_post [mPlain] ⟨false, true, true⟩ (some "host01.example.com") =
      ⟨Response.errorMessage "Machine has no remote power!", [mPlain],
        [Event.lookup "host01.example.com"]⟩ :=
  ⟨(c6_missing_subresource [mPlain] ⟨false, true, true⟩ (some "host01.example.com")
      "host01.example.com" rfl rfl).1 mPlain (by decide) rfl,
    (c6_missing_subresource [mPlain] ⟨false, true, true⟩ (some "host01.example.com")
      "host01.example.com" rfl rfl).2 mPlain (by decide) rfl⟩

/-- Follows the claim's words, for comparison with the source's
`pyReplaceDataDot`: strip the storage-namespace `data.` from the front
of a kind name when it is there, leaving the name unchanged
otherwise. -/
def specStripNamespace (s : String) : String :=
  if s.toList.take 5 = ['d', 'a', 't', 'a', '.'] then String.mk (s.toList.drop 5) else s

/-- Concrete non-virtual machine whose cascade mapping contains the kind
name `metadata.Widget`, in which `data.` occurs but not as the
storage-namespace front. -/
def mCascade : Machine :=
  { fqdn := "host02.example.com", isVirtualMachine := false, hypervisor := none,
    serialconsole := none, remotepower := none,
    deleteResult := [("metadata.Widget", 1)] }

/-- C8 counterexample: on a successful machine-delete whose cascade
mapping holds the kind name `metadata.Widget`, the handler emits the row
name `metaWidget` — `key.replace('data.', '')` removes every occurrence
of the substring — whereas stripping the storage-namespace from the
front of the kind name, as the claim states, would leave
`metadata.Widget` unchanged; so the emitted table differs from the table
the claim describes. -/
theorem c8_counterexample :
    (DeleteMachineCommand_post [mCascade] ⟨false, true, true⟩
        (some "host02.example.com")).resp =
      Response.table [("objects", "Deleted objects"), ("count", "#")] [("metaWidget", 1)] ∧
    specStripNamespace "metadata.Widget" = "metadata.Widget" ∧
    (DeleteMachineCommand_post [mCascade] ⟨false, true, true⟩
        (some "host02.example.com")).resp ≠
      Response.table [("objects", "Deleted objects"), ("count", "#")]
        (mCascade.deleteResult.map (fun kv => (specStripNamespace kv.1, kv.2))) := by
  decide

/-- C8 (amended): on every successful execute, of any of the three
kinds, the returned table has header `{Deleted objects, #}` and exactly
one row per entity kind in the cascade-delete count mapping, each row
pairing the kind name with its count, where every occurrence of the
literal substring `data.` is removed from the kind name (in particular
the storage-namespace `data.` at the front is stripped: `data.Machine`
becomes `Machine`). -/
theorem c8_table_shape (machines : List Machine) (p : Principal)
    (form : Option String) (fqdn : String)
    (hsu : p.isSuperuser = true) (hval : validateForm form = Except.ok fqdn) :
    (∀ m, objectsGet machines fqdn = some m → m.isVirtualMachine = false →
      (DeleteMachineCommand_post machines p form).resp =
        Response.table [("objects", "Deleted objects"), ("count", "#")]
          (m.deleteResult.map (fun kv => (pyReplaceDataDot kv.1, kv.2)))) ∧
    (∀ m host api, objectsGet machines fqdn = some m → m.isVirtualMachine = true →
      m.hypervisor = some host → host.virtualization_api = some api →
      api.remove = RemoveOutcome.ok →
      (DeleteMachineCommand_post machines p form).resp =
        Response.table [("objects", "Deleted objects"), ("count", "#")]
          (m.deleteResult.map (fun kv => (pyReplaceDataDot kv.1, kv.2)))) ∧
    (∀ m counts, objectsGet machines fqdn = some m → m.serialconsole = some counts →
      (DeleteSerialConsoleCommand_post machines p form).resp =
        Response.table [("objects", "Deleted objects"), ("count", "#")]
          (counts.map (fun kv => (pyReplaceDataDot kv.1, kv.2)))) ∧
    (∀ m counts, objectsGet machines fqdn = some m → m.remotepower = some counts →
      (DeleteRemotePowerCommand_post machines p form).resp =
        Response.table [("objects", "Deleted objects"), ("count", "#")]
          (counts.map (fun kv => (pyReplaceDataDot kv.1, kv.2)))) := by
  refine ⟨?_, ?_, ?_, ?_⟩
  · intro m hget hnv
    unfold DeleteMachineCommand_post
    simp [hsu, hval, hget, hnv, makeTable]
  · intro m host api hget hv hh ha hr
    unfold DeleteMachineCommand_post
    simp [hsu, hval, hget, hv, hh, ha, hr, makeTable]
  · intro m counts hget hsc
    unfold DeleteSerialConsoleCommand_post
    simp [hsu, hval, hget, hsc, makeTable]
  · intro m counts hget hrp
    unfold DeleteRemotePowerCommand_post
    simp [hsu, hval, hget, hrp, makeTable]

/-- Concrete machine with a module-qualified cascade mapping for the C8
witness. -/
def mQualified : Machine :=
  { fqdn := "host03.example.com", isVirtualMachine := false, hypervisor := none,
    serialconsole := some [("data.SerialConsole", 1)], remotepower := none,
    deleteResult := [("data.Machine", 1), ("data.NetworkInterface", 2)] }

/-- Witness for C8 (amended): a non-virtual machine-delete and a
serialconsole-delete, with `data.`-qualified kind names stripped to the
bare entity names. -/
theorem c8_table_shape_witness :
    (DeleteMachineCommand_post [mQualified] ⟨false, true, true⟩
        (some "host03.example.com")).resp =
      Response.table [("objects", "Deleted objects"), ("count", "#")]
        (mQualified.deleteResult.map (fun kv => (pyReplaceDataDot kv.1, kv.2))) ∧
    (DeleteSerialConsoleCommand_post [mQualified] ⟨false, true, true⟩
        (some "host03.example.com")).resp =
      Response.table [("objects", "Deleted objects"), ("count", "#")]
        ([("data.SerialConsole", 1)].map (fun kv => (pyReplaceDataDot kv.1, kv.2))) ∧
    mQualified.deleteResult.map (fun kv => (pyReplaceDataDot kv.1, kv.2)) =
      [("Machine", 1), ("NetworkInterface", 2)] :=
  ⟨(c8_table_shape [mQualified] ⟨false, true, true⟩ (some "host03.example.com")
      "host03.example.com" rfl rfl).1 mQualified (by decide) rfl,
    (c8_table_shape [mQualified] ⟨false, true, true⟩ (some "host03.example.com")
      "host03.example.com" rfl rfl).2.2.1 mQualified [("data.SerialConsole", 1)]
      (by decide) rfl,
    by decide⟩
